import Mathlib

/-!
Verification of the instance orchestration engine of Linux-Coop.

The definitions below are a shallow embedding of the Python sources
`src/services/instance.py`, `src/core/cache.py` and `src/models/profile.py`.
Paths are modelled as strings, machine state observed by the code
(filesystem queries, process spawning, signal delivery) is supplied as an
explicit oracle, and fallible code returns `Except`.
-/

namespace LinuxCoop

/-! ## CPU partitioner

Embedding of the core-assignment loop in `InstanceService.launch_instances`
(`src/services/instance.py` lines 76-92).  The Python code computes
`cores_per_instance = cpu_count // num_instances` and
`remaining_cores = cpu_count % num_instances`, then for each instance takes
`cores_per_instance` cores plus one extra while `remaining_cores > 0`,
consuming consecutive core numbers starting from 0.  Each instance's cores
are rendered as a comma-joined string of decimal core numbers. -/

/-- Loop body of the partitioner: `n` instances remain, `remaining_cores`
extra cores are still to be distributed, and `current_core_start` is the next
unassigned core number. -/
def buildAssignments (cores_per_instance : Nat) : Nat → Nat → Nat → List (List Nat)
  | 0, _, _ => []
  | n + 1, remaining_cores, current_core_start =>
      let num_cores_for_instance := cores_per_instance + (if 0 < remaining_cores then 1 else 0)
      ((List.range num_cores_for_instance).map (fun j => current_core_start + j)) ::
        buildAssignments cores_per_instance n (remaining_cores - 1)
          (current_core_start + num_cores_for_instance)

/-- Core lists assigned to the `num_instances` instances on a host with
`cpu_count` logical cores, as lists of core numbers. -/
def core_assignments (cpu_count num_instances : Nat) : List (List Nat) :=
  buildAssignments (cpu_count / num_instances) num_instances (cpu_count % num_instances) 0

/-- The comma-joined string form actually stored in `core_assignments` by the
Python code (each entry is `",".join(cores_list)`). -/
def core_assignments_joined (cpu_count num_instances : Nat) : List String :=
  (core_assignments cpu_count num_instances).map
    (fun cores_list => String.intercalate "," (cores_list.map toString))

theorem buildAssignments_length (p : Nat) :
    ∀ (n r s : Nat), (buildAssignments p n r s).length = n := by
  intro n
  induction n with
  | zero => intro r s; rfl
  | succ n ih => intro r s; simp [buildAssignments, ih]

theorem buildAssignments_flatten (p : Nat) :
    ∀ (n r s : Nat),
      (buildAssignments p n r s).flatten =
        (List.range (n * p + min r n)).map (fun j => s + j) := by
  intro n
  induction n with
  | zero => intro r s; simp [buildAssignments]
  | succ n ih =>
      intro r s
      have harith :
          (n + 1) * p + min r (n + 1) =
            (p + (if 0 < r then 1 else 0)) + (n * p + min (r - 1) n) := by
        simp only [Nat.succ_mul]
        split_ifs with h <;> omega
      rw [buildAssignments]
      simp only [List.flatten_cons, ih]
      rw [harith]
      conv_rhs => rw [List.range_add, List.map_append, List.map_map]
      congr 1
      apply List.map_congr_left
      intro a _
      simp only [Function.comp_apply]
      omega

theorem buildAssignments_sizes (p : Nat) :
    ∀ (n r s : Nat),
      (buildAssignments p n r s).map List.length =
        (List.range n).map (fun i => p + if i < r then 1 else 0) := by
  intro n
  induction n with
  | zero => intro r s; rfl
  | succ n ih =>
      intro r s
      rw [buildAssignments, List.range_succ_eq_map]
      simp only [List.map_cons, List.length_map, List.length_range, ih, List.map_map]
      congr 1
      apply List.map_congr_left
      intro a _
      simp only [Function.comp_apply, Nat.succ_eq_add_one]
      split_ifs with h1 h2 <;> omega

/-- C1: the CPU partitioner returns one core list per instance, their
concatenation enumerates cores `0..C-1` exactly once in ascending order
(so the union is exactly the core set, with no duplicate and no idle core),
each list has `C / N` cores with the first `C % N` instances receiving one
extra, and the joined-string rendering has one entry per instance. -/
theorem cpu_partitioner_partitions (C N : Nat) (hC : 1 ≤ C) (hN : 1 ≤ N) :
    (core_assignments C N).length = N ∧
    (core_assignments C N).flatten = List.range C ∧
    (core_assignments C N).map List.length =
      (List.range N).map (fun i => C / N + if i < C % N then 1 else 0) ∧
    (core_assignments_joined C N).length = N := by
  refine ⟨buildAssignments_length _ _ _ _, ?_, buildAssignments_sizes _ _ _ _, ?_⟩
  · rw [core_assignments, buildAssignments_flatten]
    have hmod : min (C % N) N = C % N :=
      min_eq_left (le_of_lt (Nat.mod_lt _ hN))
    rw [hmod, Nat.div_add_mod]
    simp
  · rw [core_assignments_joined, List.length_map]
    exact buildAssignments_length _ _ _ _

/-- C1 witness: concrete instantiation with 8 logical cores and 3 instances,
yielding core lists of sizes 3, 3, 2 covering cores 0..7. -/
theorem cpu_partitioner_partitions_witness :
    1 ≤ 8 ∧ 1 ≤ 3 ∧
    ((core_assignments 8 3).length = 3 ∧
     (core_assignments 8 3).flatten = List.range 8 ∧
     (core_assignments 8 3).map List.length =
       (List.range 3).map (fun i => 8 / 3 + if i < 8 % 3 then 1 else 0) ∧
     (core_assignments_joined 8 3).length = 3) :=
  ⟨by decide, by decide, cpu_partitioner_partitions 8 3 (by decide) (by decide)⟩

/-! ## Data model and machine oracle

The code queries the machine through `pathlib` (`exists`, `is_symlink`,
`is_char_device`), `os.readlink` and `subprocess.Popen`.  A `World` packages
those observations; each definition below is a pure function of the world it
is given.  `World.spawn` maps an instance number to the pid of the spawned
process, or `none` when `Popen` raises.

`PlayerInstanceConfig` carries the per-player device identifiers read by
`InstanceService` (`MOUSE_EVENT_PATH`, `KEYBOARD_EVENT_PATH`,
`PHYSICAL_DEVICE_ID`, `AUDIO_DEVICE_ID`); the copy of the class in
`src/models/profile.py` predates these fields, so they are modelled from the
spec's PlayerInstanceConfig (per-player device identifiers, possibly absent
or empty).  `GameProfile` carries exactly the fields `InstanceService`
reads; `get_instance_dimensions` is an external collaborator and is kept
abstract as a function-valued field. -/

structure World where
  pathExists : String → Bool
  isSymlink : String → Bool
  readlink : String → String
  isCharDevice : String → Bool
  spawn : Nat → Option Nat

structure PlayerInstanceConfig where
  MOUSE_EVENT_PATH : Option String := none
  KEYBOARD_EVENT_PATH : Option String := none
  PHYSICAL_DEVICE_ID : Option String := none
  AUDIO_DEVICE_ID : Option String := none
  deriving DecidableEq

structure GameProfile where
  game_name : String
  exe_path : String
  is_native : Bool
  use_gamescope : Bool
  disable_bwrap : Bool
  is_splitscreen_mode : Bool
  game_args : Option String
  env_vars : List (String × String)
  player_configs : List PlayerInstanceConfig
  selected_players : List Nat
  get_instance_dimensions : Nat → Nat × Nat

structure GameInstance where
  instance_num : Nat
  profile_name : String
  prefix_dir : String
  log_file : String
  player_config : PlayerInstanceConfig

/-! ## Device resolver

Embedding of `InstanceService._validate_input_devices` (lines 347-389) and
`InstanceService._collect_device_paths` (lines 477-505). -/

/-- Python truthiness test `if s and s.strip():` applied to an optional
string (`None` and the empty or all-whitespace string are falsy). -/
def py_truthy_strip : Option String → Bool
  | none => false
  | some s => if s = "" then false else if s.trim = "" then false else true

/-- Shared validation pattern of the source: a configured device path is
accepted when it is truthy after stripping, exists, and is a character
device; otherwise a warning is logged and the device is dropped. -/
def device_validated (w : World) (s : Option String) : Bool :=
  match s with
  | none => false
  | some str =>
      if py_truthy_strip (some str) then w.pathExists str && w.isCharDevice str
      else false

/-- Python expression
`profile.player_configs[instance_idx] if profile.player_configs and 0 <= instance_idx < len(profile.player_configs) else None`. -/
def get_player_config (profile : GameProfile) (instance_idx : Nat) :
    Option PlayerInstanceConfig :=
  if profile.player_configs ≠ [] ∧ instance_idx < profile.player_configs.length then
    profile.player_configs[instance_idx]?
  else none

/-- Result dictionary of `_validate_input_devices`. -/
structure DeviceInfo where
  has_dedicated_mouse : Bool
  mouse_path_str_for_instance : Option String
  has_dedicated_keyboard : Bool
  keyboard_path_str_for_instance : Option String
  audio_device_id_for_instance : Option String
  should_add_grab_flags : Bool

def validate_input_devices (w : World) (profile : GameProfile) (instance_idx : Nat) :
    DeviceInfo :=
  match get_player_config profile instance_idx with
  | none =>
      { has_dedicated_mouse := false
        mouse_path_str_for_instance := none
        has_dedicated_keyboard := false
        keyboard_path_str_for_instance := none
        audio_device_id_for_instance := none
        should_add_grab_flags := false }
  | some player_config =>
      let has_dedicated_mouse := device_validated w player_config.MOUSE_EVENT_PATH
      let has_dedicated_keyboard := device_validated w player_config.KEYBOARD_EVENT_PATH
      { has_dedicated_mouse := has_dedicated_mouse
        mouse_path_str_for_instance := player_config.MOUSE_EVENT_PATH
        has_dedicated_keyboard := has_dedicated_keyboard
        keyboard_path_str_for_instance := player_config.KEYBOARD_EVENT_PATH
        audio_device_id_for_instance :=
          if py_truthy_strip player_config.AUDIO_DEVICE_ID then
            player_config.AUDIO_DEVICE_ID
          else none
        should_add_grab_flags := has_dedicated_mouse && has_dedicated_keyboard }

def collect_device_paths (w : World) (profile : GameProfile) (instance_idx : Nat)
    (device_info : DeviceInfo) : List String :=
  let joystick_part :=
    match get_player_config profile instance_idx with
    | some player_config =>
        if device_validated w player_config.PHYSICAL_DEVICE_ID then
          match player_config.PHYSICAL_DEVICE_ID with
          | some s => [s]
          | none => []
        else []
    | none => []
  let mouse_part :=
    if device_info.has_dedicated_mouse then
      match device_info.mouse_path_str_for_instance with
      | some s => [s]
      | none => []
    else []
  let keyboard_part :=
    if device_info.has_dedicated_keyboard then
      match device_info.keyboard_path_str_for_instance with
      | some s => [s]
      | none => []
    else []
  joystick_part ++ mouse_part ++ keyboard_part

/-- Spec-side wording of a valid device (used for the refinement statement
of C4): the path is configured (present and non-blank), exists, and is a
character device. -/
def spec_valid_device (w : World) (s : Option String) : Prop :=
  ∃ str, s = some str ∧ str ≠ "" ∧ str.trim ≠ "" ∧
    w.pathExists str = true ∧ w.isCharDevice str = true

theorem device_validated_iff (w : World) (s : Option String) :
    device_validated w s = true ↔ spec_valid_device w s := by
  cases s with
  | none => simp [device_validated, spec_valid_device]
  | some str =>
      simp only [device_validated, py_truthy_strip, spec_valid_device]
      by_cases h1 : str = "" <;> by_cases h2 : str.trim = "" <;>
        simp [h1, h2, Bool.and_eq_true, and_assoc]

theorem device_validated_some (w : World) (str : String)
    (h : device_validated w (some str) = true) :
    w.pathExists str = true ∧ w.isCharDevice str = true := by
  simp only [device_validated, py_truthy_strip] at h
  by_cases h1 : str = "" <;> by_cases h2 : str.trim = "" <;>
    simp [h1, h2] at h
  exact h

/-- C4: an invalid configured device path (empty, missing, or not a
character device) never reaches the bind list nor sets its dedicated-device
flag, and the exclusive-grab flag holds exactly when both the pointing and
the keyboard device are configured, exist, and are character devices. -/
theorem device_resolver_validated (w : World) (profile : GameProfile)
    (instance_idx : Nat) :
    ((collect_device_paths w profile instance_idx
        (validate_input_devices w profile instance_idx)).all
      (fun p => w.pathExists p && w.isCharDevice p) = true) ∧
    ((validate_input_devices w profile instance_idx).has_dedicated_mouse = true ↔
      ∃ pc, get_player_config profile instance_idx = some pc ∧
        spec_valid_device w pc.MOUSE_EVENT_PATH) ∧
    ((validate_input_devices w profile instance_idx).has_dedicated_keyboard = true ↔
      ∃ pc, get_player_config profile instance_idx = some pc ∧
        spec_valid_device w pc.KEYBOARD_EVENT_PATH) ∧
    ((validate_input_devices w profile instance_idx).should_add_grab_flags = true ↔
      ∃ pc, get_player_config profile instance_idx = some pc ∧
        spec_valid_device w pc.MOUSE_EVENT_PATH ∧
        spec_valid_device w pc.KEYBOARD_EVENT_PATH) := by
  cases hpc : get_player_config profile instance_idx with
  | none =>
      simp [validate_input_devices, collect_device_paths, hpc]
  | some pc =>
      refine ⟨?_, ?_, ?_, ?_⟩
      · simp only [validate_input_devices, collect_device_paths, hpc, List.all_append,
          Bool.and_eq_true]
        refine ⟨⟨?_, ?_⟩, ?_⟩
        · cases hv : device_validated w pc.PHYSICAL_DEVICE_ID with
          | false => simp
          | true =>
              cases hj : pc.PHYSICAL_DEVICE_ID with
              | none => rw [hj] at hv; simp [device_validated] at hv
              | some s =>
                  have hs := device_validated_some w s (hj ▸ hv)
                  simp [hj, hs.1, hs.2]
        · cases hv : device_validated w pc.MOUSE_EVENT_PATH with
          | false => simp
          | true =>
              cases hm : pc.MOUSE_EVENT_PATH with
              | none => rw [hm] at hv; simp [device_validated] at hv
              | some s =>
                  have hs := device_validated_some w s (hm ▸ hv)
                  simp [hm, hs.1, hs.2]
        · cases hv : device_validated w pc.KEYBOARD_EVENT_PATH with
          | false => simp
          | true =>
              cases hk : pc.KEYBOARD_EVENT_PATH with
              | none => rw [hk] at hv; simp [device_validated] at hv
              | some s =>
                  have hs := device_validated_some w s (hk ▸ hv)
                  simp [hk, hs.1, hs.2]
      · simp [validate_input_devices, hpc, device_validated_iff]
      · simp [validate_input_devices, hpc, device_validated_iff]
      · simp [validate_input_devices, hpc, Bool.and_eq_true, device_validated_iff]

/-! ## Sandbox command builder

Embedding of `_build_gamescope_command` (lines 391-425),
`_build_base_game_command` (lines 427-452), `_build_bwrap_command`
(lines 454-475) and `_build_command` (lines 316-345). -/

/-- Python `str.split()` with no argument: split on whitespace, dropping
empty fields. -/
def pySplit (s : String) : List String :=
  (s.split Char.isWhitespace).filter (fun t => !t.isEmpty)

def build_gamescope_command (profile : GameProfile) (should_add_grab_flags : Bool)
    (instance_num : Nat) : List String :=
  let dims := profile.get_instance_dimensions instance_num
  let effective_width := dims.1
  let effective_height := dims.2
  ["gamescope", "-e",
   "-W", toString effective_width, "-H", toString effective_height,
   "-w", toString effective_width, "-h", toString effective_height]
  ++ ["-o", "999"]
  ++ ["-r", "999"]
  ++ (if profile.is_splitscreen_mode then ["-b"] else ["-f", "--adaptive-sync"])
  ++ (if should_add_grab_flags then ["--grab", "--force-grab-cursor"] else [])

def build_base_game_command (profile : GameProfile) (proton_path : Option String)
    (symlinked_exe_path : String) (gamescope_cmd : List String) : List String :=
  let game_specific_args :=
    match profile.game_args with
    | some s => if s = "" then [] else pySplit s
    | none => []
  let base_cmd_head := if gamescope_cmd ≠ [] then gamescope_cmd ++ ["--"] else []
  if profile.is_native then
    base_cmd_head ++
      (if symlinked_exe_path ≠ "" then symlinked_exe_path :: game_specific_args else [])
  else
    base_cmd_head ++
      (match proton_path with
       | some pp =>
           if symlinked_exe_path ≠ "" then
             [pp, "run", symlinked_exe_path] ++ game_specific_args
           else []
       | none => [])

def build_bwrap_command (w : World) (profile : GameProfile) (instance_idx : Nat)
    (device_info : DeviceInfo) : List String :=
  let bwrap_cmd :=
    ["bwrap", "--dev-bind", "/", "/", "--proc", "/proc", "--tmpfs", "/tmp",
     "--cap-add", "all"]
  let device_paths_to_bind := collect_device_paths w profile instance_idx device_info
  if device_paths_to_bind ≠ [] then
    bwrap_cmd ++ ["--tmpfs", "/dev/input"]
      ++ device_paths_to_bind.flatMap (fun device_path => ["--dev-bind", device_path, device_path])
  else
    bwrap_cmd ++ ["--tmpfs", "/dev/input"]

def build_command (w : World) (profile : GameProfile) (proton_path : Option String)
    (inst : GameInstance) (symlinked_exe_path : String) : List String :=
  let instance_idx := inst.instance_num - 1
  let device_info := validate_input_devices w profile instance_idx
  let gamescope_cmd :=
    if profile.use_gamescope then
      build_gamescope_command profile device_info.should_add_grab_flags inst.instance_num
    else []
  let base_cmd := build_base_game_command profile proton_path symlinked_exe_path gamescope_cmd
  let bwrap_cmd :=
    if profile.disable_bwrap then []
    else build_bwrap_command w profile instance_idx device_info
  bwrap_cmd ++ base_cmd

/-- C5: with the sandbox disabled the final argv is exactly the base game
command (zero sandbox-stage tokens); with the sandbox enabled the argv always
starts with the bwrap stage that mounts a fresh `/dev/input` tmpfs and
dev-binds exactly the resolved device paths into it (nothing is bound when no
device was resolved, and the isolated `/dev/input` mount is never omitted). -/
theorem sandbox_command_builder (w : World) (profile : GameProfile)
    (proton_path : Option String) (inst : GameInstance) (symlinked_exe_path : String) :
    (profile.disable_bwrap = true →
      build_command w profile proton_path inst symlinked_exe_path =
        build_base_game_command profile proton_path symlinked_exe_path
          (if profile.use_gamescope then
            build_gamescope_command profile
              (validate_input_devices w profile (inst.instance_num - 1)).should_add_grab_flags
              inst.instance_num
          else [])) ∧
    (profile.disable_bwrap = false →
      build_command w profile proton_path inst symlinked_exe_path =
        ["bwrap", "--dev-bind", "/", "/", "--proc", "/proc", "--tmpfs", "/tmp",
         "--cap-add", "all", "--tmpfs", "/dev/input"]
        ++ (collect_device_paths w profile (inst.instance_num - 1)
              (validate_input_devices w profile (inst.instance_num - 1))).flatMap
            (fun device_path => ["--dev-bind", device_path, device_path])
        ++ build_base_game_command profile proton_path symlinked_exe_path
          (if profile.use_gamescope then
            build_gamescope_command profile
              (validate_input_devices w profile (inst.instance_num - 1)).should_add_grab_flags
              inst.instance_num
          else [])) := by
  constructor
  · intro h
    simp [build_command, h]
  · intro h
    simp only [build_command, h, if_false, Bool.false_eq_true]
    by_cases hp :
        collect_device_paths w profile (inst.instance_num - 1)
          (validate_input_devices w profile (inst.instance_num - 1)) = []
    · simp [build_bwrap_command, hp]
    · simp [build_bwrap_command, hp]

/-! Concrete fixtures used by witnesses. -/

def trivial_world : World :=
  { pathExists := fun _ => true
    isSymlink := fun _ => true
    readlink := fun _ => ""
    isCharDevice := fun _ => false
    spawn := fun _ => none }

def base_profile : GameProfile :=
  { game_name := "g"
    exe_path := "/game/exe"
    is_native := true
    use_gamescope := false
    disable_bwrap := false
    is_splitscreen_mode := false
    game_args := none
    env_vars := []
    player_configs := []
    selected_players := []
    get_instance_dimensions := fun _ => (0, 0) }

def sandbox_off_profile : GameProfile :=
  { base_profile with disable_bwrap := true }

def inst_one : GameInstance :=
  { instance_num := 1
    profile_name := "g"
    prefix_dir := "/p/instance_1"
    log_file := "/l/g_instance_1.log"
    player_config := {} }

/-- C5 witness: both hypotheses discharged on concrete profiles, with the
resulting argvs computed. -/
theorem sandbox_command_builder_witness :
    build_command trivial_world sandbox_off_profile none inst_one "/game/exe" =
      ["/game/exe"] ∧
    build_command trivial_world base_profile none inst_one "/game/exe" =
      ["bwrap", "--dev-bind", "/", "/", "--proc", "/proc", "--tmpfs", "/tmp",
       "--cap-add", "all", "--tmpfs", "/dev/input", "/game/exe"] := by
  constructor
  · have h :=
      (sandbox_command_builder trivial_world sandbox_off_profile none inst_one "/game/exe").1 rfl
    refine h.trans ?_
    decide
  · have h :=
      (sandbox_command_builder trivial_world base_profile none inst_one "/game/exe").2 rfl
    refine h.trans ?_
    decide

/-! ## Instance creation and player selection

Embedding of `InstanceService._create_instances` (lines 107-151).  The
directory creations and the dependency-manager calls are external effects
with idempotent semantics and are not part of the returned value; the
embedding keeps the instance-model construction and the selection logic. -/

def create_instances_go (profile : GameProfile) :
    Nat → List PlayerInstanceConfig → List GameInstance
  | _, [] => []
  | i, player_config :: rest =>
      let instance_num := i + 1
      if profile.selected_players ≠ [] ∧ instance_num ∉ profile.selected_players then
        create_instances_go profile (i + 1) rest
      else
        { instance_num := instance_num
          profile_name := profile.game_name
          prefix_dir := profile.game_name ++ "/instance_" ++ toString instance_num
          log_file := profile.game_name ++ "_instance_" ++ toString instance_num ++ ".log"
          player_config := player_config } :: create_instances_go profile (i + 1) rest

def create_instances (profile : GameProfile) : List GameInstance :=
  create_instances_go profile 0 profile.player_configs

/-- Negation of the skip condition of `_create_instances`: an instance
number is kept when no selection is given or it is selected. -/
def keep_selected (profile : GameProfile) (n : Nat) : Bool :=
  profile.selected_players.isEmpty || profile.selected_players.contains n

theorem create_instances_go_nums (profile : GameProfile) :
    ∀ (cs : List PlayerInstanceConfig) (i : Nat),
      (create_instances_go profile i cs).map (fun g => g.instance_num) =
        (List.range' (i + 1) cs.length).filter (keep_selected profile) := by
  intro cs
  induction cs with
  | nil => intro i; rfl
  | cons pc rest ih =>
      intro i
      rw [create_instances_go, List.length_cons, List.range'_succ]
      by_cases hc : profile.selected_players ≠ [] ∧ (i + 1) ∉ profile.selected_players
      · have hk : keep_selected profile (i + 1) = false := by
          rcases hc with ⟨h1, h2⟩
          simp [keep_selected, List.isEmpty_iff, h1, h2]
        rw [if_pos hc, List.filter_cons, hk]
        simpa using ih (i + 1)
      · have hk : keep_selected profile (i + 1) = true := by
          rcases Decidable.not_and_iff_or_not.mp hc with h1 | h2
          · have : profile.selected_players = [] := by
              by_contra hne
              exact h1 hne
            simp [keep_selected, this]
          · have : (i + 1) ∈ profile.selected_players := Decidable.not_not.mp h2
            simp [keep_selected, this]
        rw [if_neg hc, List.map_cons, List.filter_cons, hk]
        simpa using ih (i + 1)

/-- C6: with an empty selection every player configuration yields an
instance (numbers 1..len in order); with a non-empty selection exactly the
selected 1-based instance numbers are created; created instance numbers are
strictly ascending. -/
theorem orchestrator_selection (profile : GameProfile) :
    (profile.selected_players = [] →
      (create_instances profile).map (fun g => g.instance_num) =
        List.range' 1 profile.player_configs.length) ∧
    (profile.selected_players ≠ [] →
      (create_instances profile).map (fun g => g.instance_num) =
        (List.range' 1 profile.player_configs.length).filter
          (fun n => profile.selected_players.contains n)) ∧
    List.Pairwise (fun a b => a < b)
      ((create_instances profile).map (fun g => g.instance_num)) := by
  have hbase := create_instances_go_nums profile profile.player_configs 0
  refine ⟨?_, ?_, ?_⟩
  · intro h
    rw [create_instances, hbase]
    have : ∀ n ∈ List.range' 1 profile.player_configs.length,
        keep_selected profile n = true := by
      intro n _
      simp [keep_selected, h]
    rw [List.filter_congr this]
    simp
  · intro h
    rw [create_instances, hbase]
    apply List.filter_congr
    intro n _
    simp [keep_selected, List.isEmpty_iff, h]
  · rw [create_instances, hbase]
    exact List.Pairwise.sublist (List.filter_sublist _) (List.pairwise_lt_range' 1 _)

def profile_sel24 : GameProfile :=
  { base_profile with
      player_configs := [{}, {}, {}, {}]
      selected_players := [2, 4] }

/-- C6 witness: a profile with four players and selection 2,4 creates
exactly instances 2 and 4, in that order. -/
theorem orchestrator_selection_witness :
    (create_instances profile_sel24).map (fun g => g.instance_num) = [2, 4] := by
  have h := (orchestrator_selection profile_sel24).2.1 (by decide)
  refine h.trans ?_
  decide

/-! ## Environment builder

Embedding of `InstanceService._prepare_environment` (lines 256-298).  The
process environment is a map from variable names to optional values;
`prepare_environment_pre` performs every step up to and including the
profile override loop, and `prepare_environment` finishes with the two
esync/fsync defaults that are set only when absent, exactly as in the
source. -/

def EnvMap : Type := String → Option String

def envSet (e : EnvMap) (k v : String) : EnvMap :=
  fun q => if q = k then some v else e q

def envPop (e : EnvMap) (k : String) : EnvMap :=
  fun q => if q = k then none else e q

def applyOverrides (e : EnvMap) : List (String × String) → EnvMap
  | [] => e
  | (k, v) :: rest => applyOverrides (envSet e k v) rest

/-- Model of `pathlib.Path.parent` for an absolute path containing a slash:
everything before the last slash. -/
def path_parent (p : String) : String :=
  String.mk (((p.data.reverse.dropWhile (fun c => c != '/')).drop 1).reverse)

def prepare_environment_pre (e0 : EnvMap) (inst : GameInstance)
    (steam_root proton_path : Option String) (profile : GameProfile) : EnvMap :=
  let original_path := match e0 "PATH" with | some p => p | none => ""
  let env := envPop (envPop e0 "PYTHONHOME") "PYTHONPATH"
  let env :=
    if profile.is_native then env
    else
      let env :=
        match steam_root with
        | some sr => envSet env "STEAM_COMPAT_CLIENT_INSTALL_PATH" sr
        | none => env
      let env := envSet env "STEAM_COMPAT_DATA_PATH" inst.prefix_dir
      let env := envSet env "WINEPREFIX" (inst.prefix_dir ++ "/pfx")
      match proton_path with
      | some pp => envSet env "PATH" (path_parent pp ++ ":" ++ original_path)
      | none => env
  applyOverrides env profile.env_vars

def prepare_environment (e0 : EnvMap) (inst : GameInstance)
    (steam_root proton_path : Option String) (profile : GameProfile) : EnvMap :=
  let env := prepare_environment_pre e0 inst steam_root proton_path profile
  if profile.is_native then env
  else
    let env := if env "PROTON_NO_ESYNC" = none then envSet env "PROTON_NO_ESYNC" "0" else env
    if env "PROTON_NO_FSYNC" = none then envSet env "PROTON_NO_FSYNC" "0" else env

theorem applyOverrides_not_mem (k : String) :
    ∀ (l : List (String × String)) (e : EnvMap), k ∉ l.map Prod.fst →
      applyOverrides e l k = e k := by
  intro l
  induction l with
  | nil => intro e _; rfl
  | cons kv rest ih =>
      intro e h
      obtain ⟨k1, v1⟩ := kv
      simp only [List.map_cons, List.mem_cons, not_or] at h
      rw [applyOverrides, ih _ h.2]
      simp [envSet, h.1]

theorem applyOverrides_mem (k v : String) :
    ∀ (l : List (String × String)) (e : EnvMap),
      (l.map Prod.fst).Nodup → (k, v) ∈ l → applyOverrides e l k = some v := by
  intro l
  induction l with
  | nil => intro e _ h; cases h
  | cons kv rest ih =>
      intro e hnd h
      obtain ⟨k1, v1⟩ := kv
      simp only [List.map_cons, List.nodup_cons] at hnd
      rcases List.mem_cons.mp h with heq | hmem
      · injection heq with hk hv
        subst hk
        subst hv
        rw [applyOverrides, applyOverrides_not_mem k rest _ hnd.1]
        simp [envSet]
      · rw [applyOverrides]
        exact ih _ hnd.2 hmem

/-- C7: for a non-native profile the esync/fsync defaults are written only
when the key is still absent after every other step (an already-present
value is preserved), and every key/value pair of the profile override map is
present verbatim in the final environment. -/
theorem environment_builder_overrides (e0 : EnvMap) (inst : GameInstance)
    (steam_root proton_path : Option String) (profile : GameProfile)
    (hn : profile.is_native = false)
    (hnd : (profile.env_vars.map Prod.fst).Nodup) :
    (prepare_environment_pre e0 inst steam_root proton_path profile "PROTON_NO_ESYNC" = none →
      prepare_environment e0 inst steam_root proton_path profile "PROTON_NO_ESYNC" = some "0") ∧
    (∀ v, prepare_environment_pre e0 inst steam_root proton_path profile "PROTON_NO_ESYNC" = some v →
      prepare_environment e0 inst steam_root proton_path profile "PROTON_NO_ESYNC" = some v) ∧
    (prepare_environment_pre e0 inst steam_root proton_path profile "PROTON_NO_FSYNC" = none →
      prepare_environment e0 inst steam_root proton_path profile "PROTON_NO_FSYNC" = some "0") ∧
    (∀ v, prepare_environment_pre e0 inst steam_root proton_path profile "PROTON_NO_FSYNC" = some v →
      prepare_environment e0 inst steam_root proton_path profile "PROTON_NO_FSYNC" = some v) ∧
    (∀ k v, (k, v) ∈ profile.env_vars →
      prepare_environment e0 inst steam_root proton_path profile k = some v) := by
  have hne : ("PROTON_NO_ESYNC" : String) ≠ "PROTON_NO_FSYNC" := by decide
  refine ⟨?_, ?_, ?_, ?_, ?_⟩
  · intro h
    by_cases hf : prepare_environment_pre e0 inst steam_root proton_path profile
        "PROTON_NO_FSYNC" = none
    · simp [prepare_environment, hn, h, hf, envSet, hne]
    · simp [prepare_environment, hn, h, hf, envSet, hne]
  · intro v h
    by_cases hf : prepare_environment_pre e0 inst steam_root proton_path profile
        "PROTON_NO_FSYNC" = none
    · simp [prepare_environment, hn, h, hf, envSet, hne]
    · simp [prepare_environment, hn, h, hf, envSet, hne]
  · intro h
    by_cases he : prepare_environment_pre e0 inst steam_root proton_path profile
        "PROTON_NO_ESYNC" = none
    · simp [prepare_environment, hn, h, he, envSet, hne]
    · simp [prepare_environment, hn, h, he, envSet, hne]
  · intro v h
    by_cases he : prepare_environment_pre e0 inst steam_root proton_path profile
        "PROTON_NO_ESYNC" = none
    · simp [prepare_environment, hn, h, he, envSet, hne]
    · simp [prepare_environment, hn, h, he, envSet, hne]
  · intro k v hmem
    have hpre : prepare_environment_pre e0 inst steam_root proton_path profile k = some v :=
      applyOverrides_mem k v profile.env_vars _ hnd hmem
    by_cases hke : k = "PROTON_NO_ESYNC"
    · subst hke
      by_cases hf : prepare_environment_pre e0 inst steam_root proton_path profile
          "PROTON_NO_FSYNC" = none
      · simp [prepare_environment, hn, hpre, hf, envSet, hne]
      · simp [prepare_environment, hn, hpre, hf, envSet, hne]
    · by_cases hkf : k = "PROTON_NO_FSYNC"
      · subst hkf
        by_cases he : prepare_environment_pre e0 inst steam_root proton_path profile
            "PROTON_NO_ESYNC" = none
        · simp [prepare_environment, hn, hpre, he, envSet, hne]
        · simp [prepare_environment, hn, hpre, he, envSet, hne]
      · by_cases he : prepare_environment_pre e0 inst steam_root proton_path profile
            "PROTON_NO_ESYNC" = none
        · by_cases hf : prepare_environment_pre e0 inst steam_root proton_path profile
              "PROTON_NO_FSYNC" = none
          · simp [prepare_environment, hn, he, hf, envSet, hke, hkf, hpre, hne]
          · simp [prepare_environment, hn, he, hf, envSet, hke, hkf, hpre, hne]
        · by_cases hf : prepare_environment_pre e0 inst steam_root proton_path profile
              "PROTON_NO_FSYNC" = none
          · simp [prepare_environment, hn, he, hf, envSet, hke, hkf, hpre, hne]
          · simp [prepare_environment, hn, he, hf, envSet, hke, hkf, hpre, hne]

def empty_env : EnvMap := fun _ => none

def profile_env : GameProfile :=
  { base_profile with
      is_native := false
      env_vars := [("PROTON_NO_ESYNC", "1"), ("FOO", "bar")] }

/-- C7 witness: with an operator override for the esync toggle the override
survives to the final environment, as does an unrelated override pair. -/
theorem environment_builder_overrides_witness :
    prepare_environment empty_env inst_one none none profile_env "FOO" = some "bar" ∧
    prepare_environment empty_env inst_one none none profile_env "PROTON_NO_ESYNC" = some "1" := by
  have h := environment_builder_overrides empty_env inst_one none none profile_env rfl (by decide)
  exact ⟨h.2.2.2.2 "FOO" "bar" (by decide), h.2.2.2.2 "PROTON_NO_ESYNC" "1" (by decide)⟩

/-! ## Filesystem isolation builder and launch loop

Embedding of `_create_game_directory_symlink_structure` (lines 153-176),
`_verify_executable_symlink` (lines 205-214), `_launch_single_instance`
(lines 216-254) and the per-instance loop of `launch_instances`
(lines 98-101).  `_process_game_files` only mutates the filesystem and
swallows every per-file error, so it contributes no observable result; the
world answers the verification queries made right after the mirroring.
Exceptions are modelled with `Except`: the `try` block of
`_launch_single_instance` wraps only the `Popen` call, so errors raised by
the symlink-structure builder escape both `_launch_single_instance` and the
un-guarded loop in `launch_instances`. -/

inductive LaunchErr where
  | exeOutsideGameRoot
  | symlinkVerificationFailed
  deriving DecidableEq

/-- Model of `pathlib.Path.relative_to` on normalized absolute paths: the
child with the parent segment stripped, or `None` (a `ValueError` in the
source) when the child is not below the parent. -/
def path_relative_to (child parent : String) : Option String :=
  if (parent ++ "/").data.isPrefixOf child.data then
    some (String.mk (child.data.drop (parent ++ "/").data.length))
  else none

/-- Verification step of `_verify_executable_symlink`: raises unless the
expected path exists and is a symlink.  The comparison of
`os.readlink(target)` with the original executable only emits an extra log
line inside the already-failing branch; it never affects the outcome. -/
def verify_executable_symlink (w : World)
    (symlinked_exe_path_target original_exe_path : String) : Except LaunchErr Unit :=
  if !w.pathExists symlinked_exe_path_target || !w.isSymlink symlinked_exe_path_target then
    Except.error LaunchErr.symlinkVerificationFailed
  else
    Except.ok ()

def create_game_directory_symlink_structure (w : World) (inst : GameInstance)
    (original_game_path original_exe_path : String) : Except LaunchErr String :=
  let instance_game_root := inst.prefix_dir ++ "/game_files"
  match path_relative_to original_exe_path original_game_path with
  | none => Except.error LaunchErr.exeOutsideGameRoot
  | some relative_exe_path =>
      let symlinked_exe_path_target := instance_game_root ++ "/" ++ relative_exe_path
      match verify_executable_symlink w symlinked_exe_path_target original_exe_path with
      | Except.error e => Except.error e
      | Except.ok _ => Except.ok symlinked_exe_path_target

/-- One instance launch: an empty executable path returns without raising;
a symlink-structure error propagates; a spawn failure is caught and leaves
the registry unchanged; a successful spawn appends the new pid. -/
def launch_single_instance (w : World) (profile : GameProfile)
    (original_game_path : String) (inst : GameInstance) (pids : List Nat) :
    Except LaunchErr (List Nat) :=
  if profile.exe_path = "" then Except.ok pids
  else
    match create_game_directory_symlink_structure w inst original_game_path profile.exe_path with
    | Except.error e => Except.error e
    | Except.ok _symlinked_executable_path =>
        match w.spawn inst.instance_num with
        | some pid => Except.ok (pids ++ [pid])
        | none => Except.ok pids

structure LaunchOutcome where
  pids : List Nat
  attempted : List Nat
  failure : Option LaunchErr
  deriving DecidableEq

/-- The `for i, instance in enumerate(instances)` loop of
`launch_instances`: records each instance number as it is attempted; an
uncaught exception ends the loop at once. -/
def launch_loop (w : World) (profile : GameProfile) (original_game_path : String) :
    List GameInstance → List Nat → List Nat → LaunchOutcome
  | [], pids, attempted => { pids := pids, attempted := attempted, failure := none }
  | inst :: rest, pids, attempted =>
      match launch_single_instance w profile original_game_path inst pids with
      | Except.error e =>
          { pids := pids, attempted := attempted ++ [inst.instance_num], failure := some e }
      | Except.ok pids1 =>
          launch_loop w profile original_game_path rest pids1 (attempted ++ [inst.instance_num])

def no_symlink_world : World :=
  { pathExists := fun _ => false
    isSymlink := fun _ => false
    readlink := fun _ => ""
    isCharDevice := fun _ => false
    spawn := fun _ => some 100 }

def inst_two : GameInstance :=
  { instance_num := 2
    profile_name := "g"
    prefix_dir := "/p/instance_2"
    log_file := "/l/g_instance_2.log"
    player_config := {} }

/-- C2 counterexample: with two selected instances and a filesystem
isolation error on the first (mirrored executable absent), the launch loop
stops with the error after attempting only instance 1 — instance 2 is never
attempted, refuting "the remaining instances still attempt to launch". -/
theorem isolation_error_counterexample :
    launch_loop no_symlink_world base_profile "/game" [inst_one, inst_two] [] [] =
      { pids := [], attempted := [1],
        failure := some LaunchErr.symlinkVerificationFailed } ∧
    2 ∉ (launch_loop no_symlink_world base_profile "/game" [inst_one, inst_two] [] []).attempted := by
  exact ⟨by decide, by decide⟩

/-- C2 amended: a filesystem isolation error (executable outside the game
root or symlink verification failure) aborts the whole launch loop: the
failing instance gets no pid and the remaining instances are never
attempted; instances launched before the failure keep their pids. -/
theorem isolation_error_aborts_loop (w : World) (profile : GameProfile)
    (original_game_path : String) (inst : GameInstance) (rest : List GameInstance)
    (pids attempted : List Nat) (e : LaunchErr)
    (h : launch_single_instance w profile original_game_path inst pids = Except.error e) :
    launch_loop w profile original_game_path (inst :: rest) pids attempted =
      { pids := pids, attempted := attempted ++ [inst.instance_num], failure := some e } := by
  simp [launch_loop, h]

/-- C2 amended witness: concrete failing instance with pre-existing pids and
attempts; the loop returns at once with the error. -/
theorem isolation_error_aborts_loop_witness :
    launch_loop no_symlink_world base_profile "/game" [inst_two] [7] [5] =
      { pids := [7], attempted := [5, 2],
        failure := some LaunchErr.symlinkVerificationFailed } :=
  isolation_error_aborts_loop no_symlink_world base_profile "/game" inst_two [] [7] [5]
    LaunchErr.symlinkVerificationFailed rfl

def wrong_target_world : World :=
  { pathExists := fun _ => true
    isSymlink := fun _ => true
    readlink := fun _ => "/elsewhere/other"
    isCharDevice := fun _ => false
    spawn := fun _ => none }

/-- C3 counterexample: a mirrored path that exists and is a symlink whose
readlink target differs from the original executable passes verification
(`Except.ok`), refuting "target differs … verification fails". -/
theorem symlink_verification_counterexample :
    wrong_target_world.pathExists "/p/instance_1/game_files/exe" = true ∧
    wrong_target_world.isSymlink "/p/instance_1/game_files/exe" = true ∧
    wrong_target_world.readlink "/p/instance_1/game_files/exe" ≠ "/game/exe" ∧
    verify_executable_symlink wrong_target_world "/p/instance_1/game_files/exe" "/game/exe" =
      Except.ok () := by
  exact ⟨rfl, rfl, by decide, rfl⟩

/-- C3 amended: the builder's verification succeeds exactly when the
expected mirrored path exists and is a symbolic link; absence or
non-symlink fails with the symlink-verification error (which aborts that
instance's launch), but the symlink's target is never compared with the
original executable in a way that can fail the check. -/
theorem symlink_verification_checks (w : World) (target original : String) :
    (verify_executable_symlink w target original = Except.ok () ↔
      w.pathExists target = true ∧ w.isSymlink target = true) ∧
    (verify_executable_symlink w target original =
        Except.error LaunchErr.symlinkVerificationFailed ↔
      ¬(w.pathExists target = true ∧ w.isSymlink target = true)) := by
  unfold verify_executable_symlink
  cases hp : w.pathExists target <;> cases hs : w.isSymlink target <;> simp

/-- C8: a spawn failure for one instance is contained: that instance adds no
pid to the live registry, and the loop proceeds to the remaining instances
unchanged. -/
theorem spawn_failure_nonfatal (w : World) (profile : GameProfile)
    (original_game_path : String) (inst : GameInstance) (rest : List GameInstance)
    (pids attempted : List Nat) (s : String)
    (hcreate : create_game_directory_symlink_structure w inst original_game_path
        profile.exe_path = Except.ok s)
    (hspawn : w.spawn inst.instance_num = none) :
    launch_single_instance w profile original_game_path inst pids = Except.ok pids ∧
    launch_loop w profile original_game_path (inst :: rest) pids attempted =
      launch_loop w profile original_game_path rest pids (attempted ++ [inst.instance_num]) := by
  have h1 : launch_single_instance w profile original_game_path inst pids = Except.ok pids := by
    unfold launch_single_instance
    by_cases hx : profile.exe_path = ""
    · simp [hx]
    · simp [hx, hcreate, hspawn]
  exact ⟨h1, by simp [launch_loop, h1]⟩

/-- C8 witness: a world where the mirror verifies but `Popen` fails; the
registry stays empty and the loop moves on. -/
theorem spawn_failure_nonfatal_witness :
    launch_single_instance trivial_world base_profile "/game" inst_one [] = Except.ok [] ∧
    launch_loop trivial_world base_profile "/game" [inst_one] [] [] =
      launch_loop trivial_world base_profile "/game" [] [] [1] :=
  spawn_failure_nonfatal trivial_world base_profile "/game" inst_one [] [] []
    "/p/instance_1/game_files/exe" rfl rfl

/-! ## Termination

Embedding of `InstanceService.terminate_all` (lines 523-539).  `os.kill`
outcomes are supplied by an oracle; the per-pid `try` bodies log a
`ProcessLookupError` at info level (like success) and any other failure at
error level, and never re-raise, so the loop always visits every tracked
pid.  The function returns the new registry and the ordered list of pids
the kill signal was sent to, each with the level of the resulting log
line.  The embedding contains no waiting construct, matching the absence of
any `wait` call in the source. -/

inductive KillResult where
  | ok
  | processLookupError
  | otherFailure
  deriving DecidableEq

inductive LogLevel where
  | info
  | error
  deriving DecidableEq

def logLevelOf : KillResult → LogLevel
  | KillResult.ok => LogLevel.info
  | KillResult.processLookupError => LogLevel.info
  | KillResult.otherFailure => LogLevel.error

def terminate_all (kill : Nat → KillResult) (pids : List Nat) :
    List Nat × List (Nat × LogLevel) :=
  if pids.isEmpty then (pids, [])
  else ([], pids.map (fun pid => (pid, logLevelOf (kill pid))))

/-- C9: terminate_all sends the kill signal to every tracked pid whatever
the individual outcomes, a vanished pid is logged at the same level as a
successful kill (not as an error), the registry is empty afterwards, and a
second call is a no-op that sends no signals. -/
theorem terminate_all_spec (kill : Nat → KillResult) (pids : List Nat) :
    ((terminate_all kill pids).2.map Prod.fst = pids) ∧
    (terminate_all kill pids).1 = [] ∧
    terminate_all kill ((terminate_all kill pids).1) = ([], []) ∧
    logLevelOf KillResult.processLookupError = LogLevel.info := by
  by_cases h : pids.isEmpty
  · have hnil : pids = [] := List.isEmpty_iff.mp h
    subst hnil
    exact ⟨rfl, rfl, rfl, rfl⟩
  · refine ⟨?_, ?_, ?_, rfl⟩
    · simp only [terminate_all, h, if_false, Bool.false_eq_true, List.map_map]
      exact List.map_congr_left (fun a _ => rfl) |>.trans (List.map_id pids)
    · simp [terminate_all, h]
    · simp [terminate_all, h]

/-! ## Path-existence cache

Embedding of `ProfileCache.check_path_exists` (`src/core/cache.py` lines
14-29) and `GameProfile.validate_exe_path` (`src/models/profile.py` lines
43-51).  Wall-clock instants are integers; the cache holds a recorded
existence bit and a timestamp per path string, with a 300-second TTL. -/

structure CacheState where
  path_cache : String → Option Bool
  cache_timestamps : String → Option Int

def cache_ttl : Int := 300

/-- Miss path of `check_path_exists`: consult the filesystem and record the
answer with the current time. -/
def cache_store (fs : String → Bool) (current_time : Int) (path : String)
    (s : CacheState) : Bool × CacheState :=
  let ex := fs path
  (ex,
   { path_cache := fun p => if p = path then some ex else s.path_cache p
     cache_timestamps := fun p => if p = path then some current_time else s.cache_timestamps p })

def check_path_exists (fs : String → Bool) (current_time : Int) (path : String)
    (s : CacheState) : Bool × CacheState :=
  match s.path_cache path, s.cache_timestamps path with
  | some cached, some ts =>
      if current_time - ts < cache_ttl then (cached, s)
      else cache_store fs current_time path s
  | some _, none => cache_store fs current_time path s
  | none, _ => cache_store fs current_time path s

def validate_exe_path (fs : String → Bool) (current_time : Int) (path : String)
    (s : CacheState) : Except String String × CacheState :=
  let res := check_path_exists fs current_time path s
  if res.1 then (Except.ok path, res.2)
  else (Except.error ("Game executable not found: " ++ path), res.2)

/-- C10: within the 300-second TTL a recorded existence check is returned
as-is without consulting the filesystem (the result is the recorded bit for
every filesystem), so executable validation can succeed for a file that no
longer exists, and two checks within the TTL agree even when the file is
created or deleted in between. -/
theorem cache_ttl_stale (path : String) :
    (∀ (fs : String → Bool) (now : Int) (b : Bool) (t : Int) (s : CacheState),
      s.path_cache path = some b → s.cache_timestamps path = some t →
      now - t < 300 →
      check_path_exists fs now path s = (b, s)) ∧
    (∀ (fs : String → Bool) (now t : Int) (s : CacheState),
      s.path_cache path = some true → s.cache_timestamps path = some t →
      now - t < 300 → fs path = false →
      validate_exe_path fs now path s = (Except.ok path, s)) ∧
    (∀ (fs0 fs1 : String → Bool) (now0 now1 : Int) (s0 : CacheState),
      s0.path_cache path = none → now1 - now0 < 300 →
      (check_path_exists fs1 now1 path (check_path_exists fs0 now0 path s0).2).1 =
        (check_path_exists fs0 now0 path s0).1) := by
  have hhit : ∀ (fs : String → Bool) (now : Int) (b : Bool) (t : Int) (s : CacheState),
      s.path_cache path = some b → s.cache_timestamps path = some t →
      now - t < 300 →
      check_path_exists fs now path s = (b, s) := by
    intro fs now b t s h1 h2 h3
    simp [check_path_exists, h1, h2, cache_ttl, h3]
  refine ⟨hhit, ?_, ?_⟩
  · intro fs now t s h1 h2 h3 hfs
    have h := hhit fs now true t s h1 h2 h3
    simp [validate_exe_path, h]
  · intro fs0 fs1 now0 now1 s0 h0 hlt
    have hstore : check_path_exists fs0 now0 path s0 = cache_store fs0 now0 path s0 := by
      simp [check_path_exists, h0]
    have h1c : (cache_store fs0 now0 path s0).2.path_cache path = some (fs0 path) := by
      simp [cache_store]
    have h2c : (cache_store fs0 now0 path s0).2.cache_timestamps path = some now0 := by
      simp [cache_store]
    rw [hstore, hhit fs1 now1 (fs0 path) now0 _ h1c h2c hlt]
    simp [cache_store]

def fresh_cache : CacheState :=
  { path_cache := fun _ => none
    cache_timestamps := fun _ => none }

def recorded_cache : CacheState :=
  { path_cache := fun p => if p = "/x" then some true else none
    cache_timestamps := fun p => if p = "/x" then some 0 else none }

/-- C10 witness: a check at time 0 on an existing file and a check at time
200 after the file vanished agree, and validation at time 100 against the
recorded entry succeeds although the filesystem says the file is gone. -/
theorem cache_ttl_stale_witness :
    (check_path_exists (fun _ => false) 200 "/x"
        (check_path_exists (fun _ => true) 0 "/x" fresh_cache).2).1 =
      (check_path_exists (fun _ => true) 0 "/x" fresh_cache).1 ∧
    validate_exe_path (fun _ => false) 100 "/x" recorded_cache =
      (Except.ok "/x", recorded_cache) := by
  constructor
  · exact (cache_ttl_stale "/x").2.2 (fun _ => true) (fun _ => false) 0 200 fresh_cache
      rfl (by decide)
  · exact (cache_ttl_stale "/x").2.1 (fun _ => false) 100 0 recorded_cache
      rfl rfl (by decide) rfl

end LinuxCoop
